import Mathlib

/-!
# seo-svc: transport adapters and the controller read path

A shallow embedding of the HTTP handlers (internal/handler/http), the gRPC
handlers (internal/handler/grpc) and the controller (internal/controller) of
the SEO service, followed by theorems about status mapping, validation
ordering, route dispatch and metrics observation.

Conventions of the embedding:

* a Go error value is a term of GoError; errors.Is walks its wrap tree;
* a handler is a function from the request (and the collaborators it is
  handed) to an Outcome recording the response that was written, the
  arguments the deferred closure gave to metrics.ObserveRequest, and the
  controller invocations that took place, in order;
* helpers that live in packages outside the handler files (URL parsing, JSON
  decoding, validation, protobuf conversion, the record types) are parameters.
-/

namespace SeoSvc

/-! ## Go errors -/

/-- Error values: a package-level value made by errors.New (told apart by its
identity), a value wrapping another one with %w, or errors.Join of two. -/
inductive GoError where
  | new (id : Nat)
  | wrap (text : String) (inner : GoError)
  | join (fst snd : GoError)
  deriving DecidableEq, Repr

namespace errors

/-- The standard library errors.Is on a non-nil error: the error itself or
anything reachable through Unwrap equals the target. Equality of error values
is identity in Go; the targets used here are package-level values, which the
identifier of the new constructor tells apart. -/
def Is : GoError → GoError → Bool
  | .new i, target => decide (GoError.new i = target)
  | .wrap t inner, target => decide (GoError.wrap t inner = target) || Is inner target
  | .join a b, target => decide (GoError.join a b = target) || (Is a target || Is b target)

end errors

namespace ctrl

/-- Modelled from the spec: the NotFound domain error of the controller
(ctrl.ErrNotFound), a package-level error value declared in another file of the package. -/
def ErrNotFound : GoError := .new 0

/-- Modelled from the spec: the AlreadyExists domain error of the controller
(ctrl.ErrAlreadyExists), a package-level error value declared in another file of the package. -/
def ErrAlreadyExists : GoError := .new 1

end ctrl

namespace hdl

/-- Modelled from the spec: the generic internal error of the handler package
(hdl.ErrInternal), declared in another file of the package. -/
def ErrInternal : GoError := .new 2

/-- Modelled from the spec: the request decoding error of the handler package
(hdl.ErrDecodeRequest), declared in another file of the package. -/
def ErrDecodeRequest : GoError := .new 3

/-- Modelled from the spec: the method-not-allowed error of the handler package
(hdl.ErrMethodNotAllowed), declared in another file of the package. -/
def ErrMethodNotAllowed : GoError := .new 4

end hdl

/-! ## Record types -/

/-- The record and message types of pkg/model and api/pb, which the handlers
only pass around: the SEO record, the Page record, what the controller returns
from its HTTP create operations and from ListPages, and the protobuf SEO
message. -/
structure Model where
  SEO : Type
  Page : Type
  SEOCreated : Type
  PageCreated : Type
  PageList : Type
  SEOMsg : Type

/-! ## HTTP adapter -/

namespace http

/-! Constants of net/http. -/

def StatusOK : Nat := 200
def StatusCreated : Nat := 201
def StatusNoContent : Nat := 204
def StatusBadRequest : Nat := 400
def StatusNotFound : Nat := 404
def StatusMethodNotAllowed : Nat := 405
def StatusConflict : Nat := 409
def StatusInternalServerError : Nat := 500

def MethodGet : String := "GET"
def MethodPost : String := "POST"
def MethodPut : String := "PUT"
def MethodDelete : String := "DELETE"

/-- The parts of *http.Request the handlers read. -/
structure Request where
  Method : String
  Path : String
  Body : String

/-- What a handler hands to SuccessResponse as data. -/
inductive Payload (M : Model) where
  | seo (v : M.SEO)
  | seoCreated (v : M.SEOCreated)
  | page (v : M.Page)
  | pageCreated (v : M.PageCreated)
  | pages (v : M.PageList)
  | text (s : String)

/-- The response written: the call made to utils.ErrResponse or utils.SuccessResponse. -/
inductive Response (M : Model) where
  | ErrResponse (code : Nat) (err : GoError)
  | SuccessResponse (code : Nat) (data : Payload M)

/-- The status code of the response sent. -/
def Response.code {M : Model} : Response M → Nat
  | .ErrResponse c _ => c
  | .SuccessResponse c _ => c

/-- The controller methods the HTTP handlers call (the context argument is left out). -/
structure Ctrl (M : Model) where
  GetSEO : String → String → Except GoError M.SEO
  CreateSEO : M.SEO → Except GoError M.SEOCreated
  UpdateSEO : M.SEO → Option GoError
  DeleteSEO : String → String → Option GoError
  ListPages : Except GoError M.PageList
  GetPage : String → Except GoError M.Page
  CreatePage : M.Page → Except GoError M.PageCreated
  UpdatePage : String → M.Page → Option GoError
  DeletePage : String → Option GoError

/-- A controller method together with the arguments it was called with. -/
inductive Call (M : Model) where
  | GetSEO (name pk : String)
  | CreateSEO (req : M.SEO)
  | UpdateSEO (req : M.SEO)
  | DeleteSEO (name pk : String)
  | ListPages
  | GetPage (slug : String)
  | CreatePage (req : M.Page)
  | UpdatePage (slug : String) (req : M.Page)
  | DeletePage (slug : String)

/-- One controller invocation: the call and the error it returned (none for nil). -/
structure Invocation (M : Model) where
  call : Call M
  err : Option GoError

/-- Helpers of other packages used by the handlers: utils.ParseURLParams,
utils.ParsePageParams, the JSON decoding of the body into a record, and
validation.ValidateSEO / validation.ValidatePage (none for a nil error). -/
structure Deps (M : Model) where
  ParseURLParams : String → String × String
  ParsePageParams : String → String
  DecodeSEO : String → Except GoError M.SEO
  DecodePage : String → Except GoError M.Page
  ValidateSEO : M.SEO → Option GoError
  ValidatePage : M.Page → Option GoError

/-- The handler value: the controller it holds and the helpers it links against. -/
structure Handler (M : Model) where
  ctrl : Ctrl M
  deps : Deps M

/-- What running a handler did: the response written, the code and operation
name the deferred closure passed to metrics.ObserveRequest (none when no
observation was made), and the controller invocations in order. -/
structure Outcome (M : Model) where
  resp : Response M
  observed : Option (Nat × String)
  calls : List (Invocation M)

/-- The deferred closure of a handler runs on return and reads the final value of c. -/
def finish {M : Model} (op : String) (c : Nat) (resp : Response M)
    (calls : List (Invocation M)) : Outcome M :=
  { resp := resp, observed := some (c, op), calls := calls }

namespace Handler

variable {M : Model}

def GetSEO (h : Handler M) (r : Request) : Outcome M :=
  let c := StatusOK
  let op := "seo.GetItemSEO.handler"
  let p := h.deps.ParseURLParams r.Path
  if p.1 = "" ∨ p.2 = "" then
    let c := StatusBadRequest
    finish op c (.ErrResponse c hdl.ErrDecodeRequest) []
  else
    match h.ctrl.GetSEO p.1 p.2 with
    | .error err =>
      if errors.Is err ctrl.ErrNotFound then
        let c := StatusNotFound
        finish op c (.ErrResponse c err) [⟨.GetSEO p.1 p.2, some err⟩]
      else
        let c := StatusInternalServerError
        finish op c (.ErrResponse c hdl.ErrInternal) [⟨.GetSEO p.1 p.2, some err⟩]
    | .ok res =>
      finish op c (.SuccessResponse c (.seo res)) [⟨.GetSEO p.1 p.2, none⟩]

def CreateSEO (h : Handler M) (r : Request) : Outcome M :=
  let c := StatusCreated
  let op := "seo.CreateSEO.handler"
  match h.deps.DecodeSEO r.Body with
  | .error _ =>
    let c := StatusBadRequest
    finish op c (.ErrResponse c hdl.ErrDecodeRequest) []
  | .ok req =>
    match h.deps.ValidateSEO req with
    | some err =>
      let c := StatusBadRequest
      finish op c (.ErrResponse c err) []
    | none =>
      match h.ctrl.CreateSEO req with
      | .error err =>
        if errors.Is err ctrl.ErrAlreadyExists then
          let c := StatusConflict
          finish op c (.ErrResponse c err) [⟨.CreateSEO req, some err⟩]
        else
          let c := StatusInternalServerError
          finish op c (.ErrResponse c hdl.ErrInternal) [⟨.CreateSEO req, some err⟩]
      | .ok res =>
        finish op c (.SuccessResponse c (.seoCreated res)) [⟨.CreateSEO req, none⟩]

def UpdateSEO (h : Handler M) (r : Request) : Outcome M :=
  let c := StatusOK
  let op := "seo.UpdateSEO.handler"
  let p := h.deps.ParseURLParams r.Path
  if p.1 = "" ∨ p.2 = "" then
    let c := StatusBadRequest
    finish op c (.ErrResponse c hdl.ErrDecodeRequest) []
  else
    match h.deps.DecodeSEO r.Body with
    | .error _ =>
      let c := StatusBadRequest
      finish op c (.ErrResponse c hdl.ErrDecodeRequest) []
    | .ok req =>
      match h.deps.ValidateSEO req with
      | some err =>
        let c := StatusBadRequest
        finish op c (.ErrResponse c err) []
      | none =>
        match h.ctrl.UpdateSEO req with
        | some err =>
          if errors.Is err ctrl.ErrNotFound then
            let c := StatusNotFound
            finish op c (.ErrResponse c err) [⟨.UpdateSEO req, some err⟩]
          else
            let c := StatusInternalServerError
            finish op c (.ErrResponse c hdl.ErrInternal) [⟨.UpdateSEO req, some err⟩]
        | none =>
          finish op c (.SuccessResponse c (.text "OK")) [⟨.UpdateSEO req, none⟩]

def DeleteSEO (h : Handler M) (r : Request) : Outcome M :=
  let c := StatusNoContent
  let op := "seo.DeleteSEO.handler"
  let p := h.deps.ParseURLParams r.Path
  if p.1 = "" ∨ p.2 = "" then
    let c := StatusBadRequest
    finish op c (.ErrResponse c hdl.ErrDecodeRequest) []
  else
    match h.ctrl.DeleteSEO p.1 p.2 with
    | some err =>
      if errors.Is err ctrl.ErrNotFound then
        let c := StatusNotFound
        finish op c (.ErrResponse c err) [⟨.DeleteSEO p.1 p.2, some err⟩]
      else
        let c := StatusInternalServerError
        finish op c (.ErrResponse c hdl.ErrInternal) [⟨.DeleteSEO p.1 p.2, some err⟩]
    | none =>
      finish op c (.SuccessResponse c (.text "OK")) [⟨.DeleteSEO p.1 p.2, none⟩]

def ListPages (h : Handler M) (_r : Request) : Outcome M :=
  let c := StatusOK
  let op := "pages.ListPages.handler"
  match h.ctrl.ListPages with
  | .error err =>
    let c := StatusInternalServerError
    finish op c (.ErrResponse c hdl.ErrInternal) [⟨.ListPages, some err⟩]
  | .ok res =>
    finish op c (.SuccessResponse c (.pages res)) [⟨.ListPages, none⟩]

def GetPage (h : Handler M) (r : Request) : Outcome M :=
  let c := StatusOK
  let op := "pages.GetPage.handler"
  let slug := h.deps.ParsePageParams r.Path
  if slug = "" then
    let c := StatusBadRequest
    finish op c (.ErrResponse c hdl.ErrDecodeRequest) []
  else
    match h.ctrl.GetPage slug with
    | .error err =>
      if errors.Is err ctrl.ErrNotFound then
        let c := StatusNotFound
        finish op c (.ErrResponse c err) [⟨.GetPage slug, some err⟩]
      else
        let c := StatusInternalServerError
        finish op c (.ErrResponse c hdl.ErrInternal) [⟨.GetPage slug, some err⟩]
    | .ok res =>
      finish op c (.SuccessResponse c (.page res)) [⟨.GetPage slug, none⟩]

def CreatePage (h : Handler M) (r : Request) : Outcome M :=
  let c := StatusCreated
  let op := "pages.CreatePage.handler"
  match h.deps.DecodePage r.Body with
  | .error err =>
    let c := StatusBadRequest
    finish op c (.ErrResponse c err) []
  | .ok req =>
    match h.deps.ValidatePage req with
    | some err =>
      let c := StatusBadRequest
      finish op c (.ErrResponse c err) []
    | none =>
      match h.ctrl.CreatePage req with
      | .error err =>
        if errors.Is err ctrl.ErrAlreadyExists then
          let c := StatusConflict
          finish op c (.ErrResponse c err) [⟨.CreatePage req, some err⟩]
        else
          let c := StatusInternalServerError
          finish op c (.ErrResponse c hdl.ErrInternal) [⟨.CreatePage req, some err⟩]
      | .ok res =>
        finish op c (.SuccessResponse c (.pageCreated res)) [⟨.CreatePage req, none⟩]

def UpdatePage (h : Handler M) (r : Request) : Outcome M :=
  let c := StatusOK
  let op := "pages.UpdatePage.handler"
  let slug := h.deps.ParsePageParams r.Path
  if slug = "" then
    let c := StatusBadRequest
    finish op c (.ErrResponse c hdl.ErrDecodeRequest) []
  else
    match h.deps.DecodePage r.Body with
    | .error err =>
      let c := StatusBadRequest
      finish op c (.ErrResponse c err) []
    | .ok req =>
      match h.deps.ValidatePage req with
      | some err =>
        let c := StatusBadRequest
        finish op c (.ErrResponse c err) []
      | none =>
        match h.ctrl.UpdatePage slug req with
        | some err =>
          if errors.Is err ctrl.ErrNotFound then
            let c := StatusNotFound
            finish op c (.ErrResponse c err) [⟨.UpdatePage slug req, some err⟩]
          else
            let c := StatusInternalServerError
            finish op c (.ErrResponse c hdl.ErrInternal) [⟨.UpdatePage slug req, some err⟩]
        | none =>
          finish op c (.SuccessResponse c (.text "OK")) [⟨.UpdatePage slug req, none⟩]

def DeletePage (h : Handler M) (r : Request) : Outcome M :=
  let c := StatusNoContent
  let op := "pages.DeletePage.handler"
  let slug := h.deps.ParsePageParams r.Path
  if slug = "" then
    let c := StatusBadRequest
    finish op c (.ErrResponse c hdl.ErrDecodeRequest) []
  else
    match h.ctrl.DeletePage slug with
    | some err =>
      if errors.Is err ctrl.ErrNotFound then
        let c := StatusNotFound
        finish op c (.ErrResponse c err) [⟨.DeletePage slug, some err⟩]
      else
        let c := StatusInternalServerError
        finish op c (.ErrResponse c hdl.ErrInternal) [⟨.DeletePage slug, some err⟩]
    | none =>
      finish op c (.SuccessResponse c (.text "OK")) [⟨.DeletePage slug, none⟩]

end Handler

/-- The handlers of the HTTP adapter. -/
inductive Op where
  | GetSEO | CreateSEO | UpdateSEO | DeleteSEO
  | ListPages | GetPage | CreatePage | UpdatePage | DeletePage
  deriving DecidableEq, Repr

/-- Running the handler named by an Op on a request. -/
def Handler.run {M : Model} (h : Handler M) : Op → Request → Outcome M
  | .GetSEO => h.GetSEO
  | .CreateSEO => h.CreateSEO
  | .UpdateSEO => h.UpdateSEO
  | .DeleteSEO => h.DeleteSEO
  | .ListPages => h.ListPages
  | .GetPage => h.GetPage
  | .CreatePage => h.CreatePage
  | .UpdatePage => h.UpdatePage
  | .DeletePage => h.DeletePage

/-- The error a controller returns for a call (none for nil). -/
def Ctrl.answer {M : Model} (c : Ctrl M) : Call M → Option GoError
  | .GetSEO name pk => match c.GetSEO name pk with | .error e => some e | .ok _ => none
  | .CreateSEO req => match c.CreateSEO req with | .error e => some e | .ok _ => none
  | .UpdateSEO req => c.UpdateSEO req
  | .DeleteSEO name pk => c.DeleteSEO name pk
  | .ListPages => match c.ListPages with | .error e => some e | .ok _ => none
  | .GetPage slug => match c.GetPage slug with | .error e => some e | .ok _ => none
  | .CreatePage req => match c.CreatePage req with | .error e => some e | .ok _ => none
  | .UpdatePage slug req => c.UpdatePage slug req
  | .DeletePage slug => c.DeletePage slug

/-- The default branch of the method switch of a route: the error response is written
directly, no handler runs, so nothing is observed and the controller is not called. -/
def methodNotAllowed {M : Model} : Outcome M :=
  { resp := .ErrResponse StatusMethodNotAllowed hdl.ErrMethodNotAllowed,
    observed := none, calls := [] }

/-- The patterns RegisterSEORoutes adds to the mux, each with its handler function. -/
def RegisterSEORoutes {M : Model} (h : Handler M) : List (String × (Request → Outcome M)) :=
  [ ("/api/seo", fun r =>
      if r.Method = MethodPost then h.CreateSEO r
      else methodNotAllowed),
    ("/api/seo/", fun r =>
      if r.Method = MethodGet then h.GetSEO r
      else if r.Method = MethodPut then h.UpdateSEO r
      else if r.Method = MethodDelete then h.DeleteSEO r
      else methodNotAllowed) ]

/-- The patterns RegisterPageRoutes adds to the mux, each with its handler function. -/
def RegisterPageRoutes {M : Model} (h : Handler M) : List (String × (Request → Outcome M)) :=
  [ ("/api/page", fun r =>
      if r.Method = MethodGet then h.ListPages r
      else if r.Method = MethodPost then h.CreatePage r
      else methodNotAllowed),
    ("/api/page/", fun r =>
      if r.Method = MethodGet then h.GetPage r
      else if r.Method = MethodPut then h.UpdatePage r
      else if r.Method = MethodDelete then h.DeletePage r
      else methodNotAllowed) ]

/-- Running the handler function registered under a pattern, if there is one. -/
def serve {M : Model} (h : Handler M) (pattern : String) (r : Request) : Option (Outcome M) :=
  ((RegisterSEORoutes h ++ RegisterPageRoutes h).lookup pattern).map (fun f => f r)

end http

/-! ## gRPC adapter -/

namespace codes

/-! Constants of google.golang.org/grpc/codes. -/

def OK : Nat := 0
def InvalidArgument : Nat := 3
def NotFound : Nat := 5
def AlreadyExists : Nat := 6
def Internal : Nat := 13

end codes

namespace grpc

/-- The message pb.GetReq. -/
structure GetReq where
  Name : String
  Pk : String

/-- The message pb.CreateAndUpdateReq; Seo is a pointer and may be nil. -/
structure CreateAndUpdateReq (M : Model) where
  Name : String
  Pk : String
  Seo : Option M.SEOMsg

/-- The error built by status.Errorf(c, e.Error()): the code and the error
whose text is the message. -/
structure Status where
  code : Nat
  text : GoError
  deriving DecidableEq, Repr

/-- The reply message of a handler. -/
inductive Reply (M : Model) where
  | seo (m : M.SEOMsg)
  | empty

/-- The controller methods the gRPC handlers call (the context argument is left out). -/
structure Ctrl (M : Model) where
  GetSEO : String → String → Except GoError M.SEO
  CreateSEO : String → String → M.SEO → Option GoError
  UpdateSEO : String → String → M.SEO → Option GoError
  DeleteSEO : String → String → Option GoError

/-- A controller method together with the arguments it was called with. -/
inductive Call (M : Model) where
  | GetSEO (name pk : String)
  | CreateSEO (name pk : String) (obj : M.SEO)
  | UpdateSEO (name pk : String) (obj : M.SEO)
  | DeleteSEO (name pk : String)

/-- One controller invocation: the call and the error it returned (none for nil). -/
structure Invocation (M : Model) where
  call : Call M
  err : Option GoError

/-- Helpers of other packages used by the handlers: utils.ProtoToModel,
utils.ModelToProto and validation.ValidateSEO (none for a nil error). -/
structure Deps (M : Model) where
  ProtoToModel : Option M.SEOMsg → M.SEO
  ModelToProto : M.SEO → M.SEOMsg
  ValidateSEO : M.SEO → Option GoError

/-- The handler value: the controller it holds and the helpers it links against. -/
structure Handler (M : Model) where
  ctrl : Ctrl M
  deps : Deps M

/-- What running a handler did: the reply and error returned, the code and
operation name the deferred closure passed to metrics.ObserveRequest, whether
the span was tagged as an error, and the controller invocations in order. -/
structure Outcome (M : Model) where
  reply : Option (Reply M)
  err : Option Status
  observed : Nat × String
  spanError : Bool
  calls : List (Invocation M)

/-- The status code the caller receives: that of the returned error, OK for nil. -/
def Outcome.code {M : Model} (o : Outcome M) : Nat :=
  match o.err with
  | none => codes.OK
  | some s => s.code

/-- Returning an error: the deferred closure reads the final value of c. -/
def fail {M : Model} (op : String) (c : Nat) (st : Status) (tagged : Bool)
    (calls : List (Invocation M)) : Outcome M :=
  { reply := none, err := some st, observed := (c, op), spanError := tagged, calls := calls }

/-- Returning a reply with a nil error: the deferred closure reads the final value of c. -/
def succeed {M : Model} (op : String) (c : Nat) (rep : Reply M)
    (calls : List (Invocation M)) : Outcome M :=
  { reply := some rep, err := none, observed := (c, op), spanError := false, calls := calls }

namespace Handler

variable {M : Model}

def GetSEO (h : Handler M) (req : Option GetReq) : Outcome M :=
  let op := "seo.GetSEO.hdl"
  let c := codes.OK
  match req with
  | none =>
    let c := codes.InvalidArgument
    fail op c ⟨c, hdl.ErrDecodeRequest⟩ false []
  | some q =>
    if q.Name = "" ∨ q.Pk = "" then
      let c := codes.InvalidArgument
      fail op c ⟨c, hdl.ErrDecodeRequest⟩ false []
    else
      match h.ctrl.GetSEO q.Name q.Pk with
      | .error err =>
        if errors.Is err ctrl.ErrNotFound then
          let c := codes.NotFound
          fail op c ⟨c, err⟩ false [⟨.GetSEO q.Name q.Pk, some err⟩]
        else
          let c := codes.Internal
          fail op c ⟨c, hdl.ErrInternal⟩ true [⟨.GetSEO q.Name q.Pk, some err⟩]
      | .ok res =>
        succeed op c (.seo (h.deps.ModelToProto res)) [⟨.GetSEO q.Name q.Pk, none⟩]

def CreateSEO (h : Handler M) (req : Option (CreateAndUpdateReq M)) : Outcome M :=
  let op := "seo.CreateSEO.hdl"
  let c := codes.OK
  match req with
  | none =>
    let c := codes.InvalidArgument
    fail op c ⟨c, hdl.ErrDecodeRequest⟩ false []
  | some q =>
    if q.Name = "" ∨ q.Pk = "" then
      let c := codes.InvalidArgument
      fail op c ⟨c, hdl.ErrDecodeRequest⟩ false []
    else
      let obj := h.deps.ProtoToModel q.Seo
      match h.deps.ValidateSEO obj with
      | some err =>
        let c := codes.InvalidArgument
        fail op c ⟨c, err⟩ false []
      | none =>
        match h.ctrl.CreateSEO q.Name q.Pk obj with
        | some err =>
          if errors.Is err ctrl.ErrNotFound then
            let c := codes.NotFound
            fail op c ⟨c, err⟩ false [⟨.CreateSEO q.Name q.Pk obj, some err⟩]
          else
            let c := codes.Internal
            fail op c ⟨c, hdl.ErrInternal⟩ true [⟨.CreateSEO q.Name q.Pk obj, some err⟩]
        | none =>
          succeed op c .empty [⟨.CreateSEO q.Name q.Pk obj, none⟩]

def UpdateSEO (h : Handler M) (req : Option (CreateAndUpdateReq M)) : Outcome M :=
  let op := "seo.UpdateSEO.hdl"
  let c := codes.OK
  match req with
  | none =>
    let c := codes.InvalidArgument
    fail op c ⟨c, hdl.ErrDecodeRequest⟩ false []
  | some q =>
    if q.Name = "" ∨ q.Pk = "" then
      let c := codes.InvalidArgument
      fail op c ⟨c, hdl.ErrDecodeRequest⟩ false []
    else
      let obj := h.deps.ProtoToModel q.Seo
      match h.deps.ValidateSEO obj with
      | some err =>
        let c := codes.InvalidArgument
        fail op c ⟨c, err⟩ false []
      | none =>
        match h.ctrl.UpdateSEO q.Name q.Pk obj with
        | some err =>
          if errors.Is err ctrl.ErrNotFound then
            let c := codes.NotFound
            fail op c ⟨c, err⟩ false [⟨.UpdateSEO q.Name q.Pk obj, some err⟩]
          else
            let c := codes.Internal
            fail op c ⟨c, hdl.ErrInternal⟩ true [⟨.UpdateSEO q.Name q.Pk obj, some err⟩]
        | none =>
          succeed op c .empty [⟨.UpdateSEO q.Name q.Pk obj, none⟩]

def DeleteSEO (h : Handler M) (req : Option GetReq) : Outcome M :=
  let op := "seo.DeleteSEO.hdl"
  let c := codes.OK
  match req with
  | none =>
    let c := codes.InvalidArgument
    fail op c ⟨c, hdl.ErrDecodeRequest⟩ false []
  | some q =>
    if q.Name = "" ∨ q.Pk = "" then
      let c := codes.InvalidArgument
      fail op c ⟨c, hdl.ErrDecodeRequest⟩ false []
    else
      match h.ctrl.DeleteSEO q.Name q.Pk with
      | some err =>
        if errors.Is err ctrl.ErrNotFound then
          let c := codes.NotFound
          fail op c ⟨c, err⟩ false [⟨.DeleteSEO q.Name q.Pk, some err⟩]
        else
          let c := codes.Internal
          fail op c ⟨c, hdl.ErrInternal⟩ true [⟨.DeleteSEO q.Name q.Pk, some err⟩]
      | none =>
        succeed op c .empty [⟨.DeleteSEO q.Name q.Pk, none⟩]

end Handler

/-- An RPC of the gRPC adapter together with the request message it receives
(none for a nil request pointer). -/
inductive Rpc (M : Model) where
  | GetSEO (req : Option GetReq)
  | CreateSEO (req : Option (CreateAndUpdateReq M))
  | UpdateSEO (req : Option (CreateAndUpdateReq M))
  | DeleteSEO (req : Option GetReq)

/-- Running the handler an Rpc names on its request. -/
def Handler.run {M : Model} (h : Handler M) : Rpc M → Outcome M
  | .GetSEO req => h.GetSEO req
  | .CreateSEO req => h.CreateSEO req
  | .UpdateSEO req => h.UpdateSEO req
  | .DeleteSEO req => h.DeleteSEO req

/-- The identity fields (Name, Pk) of the request message of an Rpc, none for a
nil request. -/
def Rpc.identity {M : Model} : Rpc M → Option (String × String)
  | .GetSEO req => req.map (fun q => (q.Name, q.Pk))
  | .CreateSEO req => req.map (fun q => (q.Name, q.Pk))
  | .UpdateSEO req => req.map (fun q => (q.Name, q.Pk))
  | .DeleteSEO req => req.map (fun q => (q.Name, q.Pk))

/-- The request is nil or one of its identity fields is empty. -/
def Rpc.identityMissing {M : Model} (rpc : Rpc M) : Prop :=
  match rpc.identity with
  | none => True
  | some (name, pk) => name = "" ∨ pk = ""

/-- The error a controller returns for a call (none for nil). -/
def Ctrl.answer {M : Model} (c : Ctrl M) : Call M → Option GoError
  | .GetSEO name pk => match c.GetSEO name pk with | .error e => some e | .ok _ => none
  | .CreateSEO name pk obj => c.CreateSEO name pk obj
  | .UpdateSEO name pk obj => c.UpdateSEO name pk obj
  | .DeleteSEO name pk => c.DeleteSEO name pk

end grpc

/-! ## Domain-level decisions -/

/-- The domain-level decision the answer of an adapter stands for, in the words
of the spec (found, not-found, conflict, internal), with the adapter-level
rejection of a request added. -/
inductive Decision where
  | found
  | notFound
  | conflict
  | internal
  | invalid
  deriving DecidableEq, Repr

/-- The reading the spec gives of an HTTP status as a decision (its section 4.4): 2xx is
found, 404 not-found, 409 conflict, 500 internal, 400 a rejected request. -/
def http.decision (code : Nat) : Option Decision :=
  if 200 ≤ code ∧ code < 300 then some .found
  else if code = 404 then some .notFound
  else if code = 409 then some .conflict
  else if code = 500 then some .internal
  else if code = 400 then some .invalid
  else none

/-- The reading the spec gives of an RPC code as a decision (its section 4.4): OK
is found, NOT_FOUND not-found, ALREADY_EXISTS conflict, INTERNAL internal,
INVALID_ARGUMENT a rejected request. -/
def grpc.decision (code : Nat) : Option Decision :=
  if code = 0 then some .found
  else if code = 5 then some .notFound
  else if code = 6 then some .conflict
  else if code = 13 then some .internal
  else if code = 3 then some .invalid
  else none

/-! ## Controller read path -/

namespace ctrl

/-- Modelled from the spec: the outcome of a Store read (section 6): the record,
a miss, or a failure of the Store. The repository interface is embedded in the
controller but declared in another file of the package. -/
inductive StoreRead (R : Type) where
  | hit (rec : R)
  | miss
  | failure

/-- Modelled from the spec: the Store collaborator, as far as the read path
uses it. SEORepo is named by the controller file but declared elsewhere. -/
structure SEORepo (M : Model) where
  GetSEO : String → String → StoreRead M.SEO
  GetPage : String → StoreRead M.Page

/-- Modelled from the spec: the state of the Cache behind the CacheRepo
interface: the serialized value held at each key, and whether a Set at a key
reports an error. Expiry is left out. -/
structure CacheRepo where
  entries : String → Option String
  setFails : String → Bool

/-- Modelled from the spec: key derivation (section 4.1) and the serialization
of records, which the spec leaves to the implementer. -/
structure Codec (M : Model) where
  seoKey : String → String → String
  pageKey : String → String
  encodeSEO : M.SEO → String
  decodeSEO : String → M.SEO
  encodePage : M.Page → String
  decodePage : String → M.Page

/-- The controller value: the Store and the Cache it was constructed with. -/
structure Controller (M : Model) where
  repo : SEORepo M
  cache : CacheRepo

/-- The constructor New. -/
def New {M : Model} (repo : SEORepo M) (cache : CacheRepo) : Controller M :=
  { repo := repo, cache := cache }

/-- Modelled from the spec: the domain errors a controller operation returns. -/
inductive DomainError where
  | NotFound
  | AlreadyExists
  | Internal
  deriving DecidableEq, Repr

/-- What a Get did: the record or domain error returned, how many times the
Store was accessed, and the Cache entries afterwards. -/
structure GetResult (R : Type) where
  result : Except DomainError R
  storeAccesses : Nat
  entries : String → Option String

/-- Modelled from the spec: the cache-aside read path of section 4.2, whose
method bodies are in other files of the package. Derive the key; on a Cache hit
deserialize and return without touching the Store; on a miss read the Store:
a Store miss is NotFound and caches nothing, a Store failure is Internal and
caches nothing, a Store hit populates the Cache (a failing Set is swallowed)
and returns the record. -/
def cacheAside {R : Type} (cache : CacheRepo) (key : String) (decode : String → R)
    (encode : R → String) (readStore : StoreRead R) : GetResult R :=
  match cache.entries key with
  | some bytes => { result := .ok (decode bytes), storeAccesses := 0, entries := cache.entries }
  | none =>
    match readStore with
    | .miss => { result := .error .NotFound, storeAccesses := 1, entries := cache.entries }
    | .failure => { result := .error .Internal, storeAccesses := 1, entries := cache.entries }
    | .hit rec =>
      { result := .ok rec, storeAccesses := 1,
        entries :=
          if cache.setFails key then cache.entries
          else fun k => if k = key then some (encode rec) else cache.entries k }

/-- Modelled from the spec: Get of an SEO record, keyed by the pair (entity type
name, primary key); the method body is in another file of the package. -/
def Controller.GetSEO {M : Model} (c : Controller M) (codec : Codec M)
    (name pk : String) : GetResult M.SEO :=
  cacheAside c.cache (codec.seoKey name pk) codec.decodeSEO codec.encodeSEO
    (c.repo.GetSEO name pk)

/-- Modelled from the spec: Get of a Page record, keyed by its slug; the method
body is in another file of the package. -/
def Controller.GetPage {M : Model} (c : Controller M) (codec : Codec M)
    (slug : String) : GetResult M.Page :=
  cacheAside c.cache (codec.pageKey slug) codec.decodePage codec.encodePage
    (c.repo.GetPage slug)

end ctrl

/-! ## Concrete instances

Small instances of the parameters, used to evaluate the handlers on concrete
requests. Records are carried as plain text. -/

namespace demo

abbrev model : Model :=
  { SEO := String, Page := String, SEOCreated := String, PageCreated := String,
    PageList := List String, SEOMsg := String }

/-- Helpers for the HTTP handlers: a few known paths parse to an identity, every
other path to an empty one; an empty body fails to decode; the record text
"invalid" fails validation. -/
def httpDeps : http.Deps model :=
  { ParseURLParams := fun path =>
      if path = "/api/seo/product/42" then ("product", "42")
      else if path = "/api/seo/user/7" then ("user", "7")
      else ("", ""),
    ParsePageParams := fun path =>
      if path = "/api/page/no-such-page" then "no-such-page"
      else if path = "/api/page/about" then "about"
      else "",
    DecodeSEO := fun body => if body = "" then .error (.new 10) else .ok body,
    DecodePage := fun body => if body = "" then .error (.new 10) else .ok body,
    ValidateSEO := fun v => if v = "invalid" then some (.new 11) else none,
    ValidatePage := fun v => if v = "invalid" then some (.new 12) else none }

/-- A controller for the HTTP handlers that answers every call with the given
error, or with a fixed value when handed none. -/
def httpCtrl (e : Option GoError) : http.Ctrl model :=
  { GetSEO := fun _ _ => match e with | some x => .error x | none => .ok "title=Widget",
    CreateSEO := fun _ => match e with | some x => .error x | none => .ok "1",
    UpdateSEO := fun _ => e,
    DeleteSEO := fun _ _ => e,
    ListPages := match e with | some x => .error x | none => .ok [],
    GetPage := fun _ => match e with | some x => .error x | none => .ok "about us",
    CreatePage := fun _ => match e with | some x => .error x | none => .ok "about",
    UpdatePage := fun _ _ => e,
    DeletePage := fun _ => e }

def httpHandler (e : Option GoError) : http.Handler model :=
  { ctrl := httpCtrl e, deps := httpDeps }

/-- Helpers for the gRPC handlers: a nil message converts to the empty record
text; the record text "invalid" fails validation. -/
def grpcDeps : grpc.Deps model :=
  { ProtoToModel := fun m => match m with | some v => v | none => "",
    ModelToProto := fun v => v,
    ValidateSEO := fun v => if v = "invalid" then some (.new 11) else none }

/-- A controller for the gRPC handlers that answers every call with the given
error, or with a fixed value when handed none. -/
def grpcCtrl (e : Option GoError) : grpc.Ctrl model :=
  { GetSEO := fun _ _ => match e with | some x => .error x | none => .ok "title=Widget",
    CreateSEO := fun _ _ _ => e,
    UpdateSEO := fun _ _ _ => e,
    DeleteSEO := fun _ _ => e }

def grpcHandler (e : Option GoError) : grpc.Handler model :=
  { ctrl := grpcCtrl e, deps := grpcDeps }

/-- Another such error. -/
def errConn : GoError := .new 21

def codec : ctrl.Codec model :=
  { seoKey := fun name pk => "seo:" ++ name ++ ":" ++ pk,
    pageKey := fun slug => "page:" ++ slug,
    encodeSEO := fun v => v, decodeSEO := fun v => v,
    encodePage := fun v => v, decodePage := fun v => v }

/-- A controller over an empty Store whose Cache holds one SEO entry and one Page entry. -/
def controller : ctrl.Controller model :=
  ctrl.New
    { GetSEO := fun _ _ => .miss, GetPage := fun _ => .miss }
    { entries := fun k =>
        if k = "seo:product:42" then some "title=Widget"
        else if k = "page:about" then some "about us"
        else none,
      setFails := fun _ => false }

end demo

/-! # Theorems -/

/-! ## The call log -/

/-- Every invocation an HTTP handler records carries the error the controller
really returns for that call, and a handler invokes the controller at most once. -/
theorem http_calls_adequate {M : Model} (h : http.Handler M) (op : http.Op) (r : http.Request) :
    (∀ i ∈ (h.run op r).calls, i.err = h.ctrl.answer i.call) ∧ (h.run op r).calls.length ≤ 1 := by
  cases op <;>
    simp only [http.Handler.run, http.Handler.GetSEO, http.Handler.CreateSEO,
      http.Handler.UpdateSEO, http.Handler.DeleteSEO, http.Handler.ListPages,
      http.Handler.GetPage, http.Handler.CreatePage, http.Handler.UpdatePage,
      http.Handler.DeletePage, http.finish] <;>
    (repeat' split) <;> simp_all [http.Ctrl.answer]

/-- Every invocation a gRPC handler records carries the error the controller
really returns for that call, and a handler invokes the controller at most once. -/
theorem grpc_calls_adequate {M : Model} (g : grpc.Handler M) (rpc : grpc.Rpc M) :
    (∀ i ∈ (g.run rpc).calls, i.err = g.ctrl.answer i.call) ∧ (g.run rpc).calls.length ≤ 1 := by
  cases rpc <;>
    simp only [grpc.Handler.run, grpc.Handler.GetSEO, grpc.Handler.UpdateSEO,
      grpc.Handler.DeleteSEO, grpc.Handler.CreateSEO, grpc.fail, grpc.succeed] <;>
    (repeat' split) <;> simp_all [grpc.Ctrl.answer]

/-- An HTTP request that passes the checks of a handler reaches the controller, once,
with the arguments shown: the parsed identity for Get and Delete, the decoded
body for the SEO create and update, the parsed slug (and decoded body) for pages. -/
theorem http_valid_request_invokes_controller {M : Model} (h : http.Handler M)
    (r : http.Request) :
    ((h.deps.ParseURLParams r.Path).1 ≠ "" → (h.deps.ParseURLParams r.Path).2 ≠ "" →
      (h.GetSEO r).calls.map (fun i => i.call)
        = [.GetSEO (h.deps.ParseURLParams r.Path).1 (h.deps.ParseURLParams r.Path).2] ∧
      (h.DeleteSEO r).calls.map (fun i => i.call)
        = [.DeleteSEO (h.deps.ParseURLParams r.Path).1 (h.deps.ParseURLParams r.Path).2]) ∧
    (∀ req, h.deps.DecodeSEO r.Body = .ok req → h.deps.ValidateSEO req = none →
      (h.CreateSEO r).calls.map (fun i => i.call) = [.CreateSEO req] ∧
      ((h.deps.ParseURLParams r.Path).1 ≠ "" → (h.deps.ParseURLParams r.Path).2 ≠ "" →
        (h.UpdateSEO r).calls.map (fun i => i.call) = [.UpdateSEO req])) ∧
    (h.ListPages r).calls.map (fun i => i.call) = [.ListPages] ∧
    (h.deps.ParsePageParams r.Path ≠ "" →
      (h.GetPage r).calls.map (fun i => i.call) = [.GetPage (h.deps.ParsePageParams r.Path)] ∧
      (h.DeletePage r).calls.map (fun i => i.call)
        = [.DeletePage (h.deps.ParsePageParams r.Path)]) ∧
    (∀ req, h.deps.DecodePage r.Body = .ok req → h.deps.ValidatePage req = none →
      (h.CreatePage r).calls.map (fun i => i.call) = [.CreatePage req] ∧
      (h.deps.ParsePageParams r.Path ≠ "" →
        (h.UpdatePage r).calls.map (fun i => i.call)
          = [.UpdatePage (h.deps.ParsePageParams r.Path) req])) := by
  refine ⟨?_, ?_, ?_, ?_, ?_⟩
  · intro h1 h2
    constructor <;>
      simp only [http.Handler.GetSEO, http.Handler.DeleteSEO, http.finish] <;>
      (repeat' split) <;> simp_all
  · intro req hd hv
    refine ⟨?_, fun h1 h2 => ?_⟩ <;>
      simp only [http.Handler.CreateSEO, http.Handler.UpdateSEO, http.finish] <;>
      (repeat' split) <;> simp_all
  · simp only [http.Handler.ListPages, http.finish]
    split <;> simp
  · intro h1
    constructor <;>
      simp only [http.Handler.GetPage, http.Handler.DeletePage, http.finish] <;>
      (repeat' split) <;> simp_all
  · intro req hd hv
    refine ⟨?_, fun h1 => ?_⟩ <;>
      simp only [http.Handler.CreatePage, http.Handler.UpdatePage, http.finish] <;>
      (repeat' split) <;> simp_all

/-- A gRPC request that passes the checks of a handler reaches the controller, once,
with the Name and Pk of the message (and the converted record for create and update). -/
theorem grpc_valid_request_invokes_controller {M : Model} (g : grpc.Handler M)
    (q : grpc.GetReq) (u : grpc.CreateAndUpdateReq M) :
    (q.Name ≠ "" → q.Pk ≠ "" →
      (g.GetSEO (some q)).calls.map (fun i => i.call) = [.GetSEO q.Name q.Pk] ∧
      (g.DeleteSEO (some q)).calls.map (fun i => i.call) = [.DeleteSEO q.Name q.Pk]) ∧
    (u.Name ≠ "" → u.Pk ≠ "" → g.deps.ValidateSEO (g.deps.ProtoToModel u.Seo) = none →
      (g.CreateSEO (some u)).calls.map (fun i => i.call)
        = [.CreateSEO u.Name u.Pk (g.deps.ProtoToModel u.Seo)] ∧
      (g.UpdateSEO (some u)).calls.map (fun i => i.call)
        = [.UpdateSEO u.Name u.Pk (g.deps.ProtoToModel u.Seo)]) := by
  refine ⟨?_, ?_⟩
  · intro h1 h2
    constructor <;>
      simp only [grpc.Handler.GetSEO, grpc.Handler.DeleteSEO, grpc.fail, grpc.succeed] <;>
      (repeat' split) <;> simp_all
  · intro h1 h2 hv
    constructor <;>
      simp only [grpc.Handler.CreateSEO, grpc.Handler.UpdateSEO, grpc.fail, grpc.succeed] <;>
      (repeat' split) <;> simp_all

/-! ## Status mapping -/

/-- C1, evaluated on the code: gRPC CreateSEO on a well-formed request whose
controller call returns ErrAlreadyExists answers INTERNAL with the generic error,
not ALREADY_EXISTS, while HTTP CreateSEO and CreatePage answer 409 on the same
controller error; and no run of gRPC CreateSEO ever answers ALREADY_EXISTS. -/
theorem grpc_CreateSEO_conflict_answers_internal :
    errors.Is ctrl.ErrAlreadyExists ctrl.ErrAlreadyExists = true ∧
    ((demo.grpcHandler (some ctrl.ErrAlreadyExists)).CreateSEO
        (some ⟨"product", "42", some "title=Widget"⟩)).err
      = some ⟨codes.Internal, hdl.ErrInternal⟩ ∧
    ((demo.grpcHandler (some ctrl.ErrAlreadyExists)).CreateSEO
        (some ⟨"product", "42", some "title=Widget"⟩)).calls
      = [⟨.CreateSEO "product" "42" "title=Widget", some ctrl.ErrAlreadyExists⟩] ∧
    codes.Internal ≠ codes.AlreadyExists ∧
    ((demo.httpHandler (some ctrl.ErrAlreadyExists)).CreateSEO
        ⟨"POST", "/api/seo", "title=Widget"⟩).resp.code = http.StatusConflict ∧
    ((demo.httpHandler (some ctrl.ErrAlreadyExists)).CreatePage
        ⟨"POST", "/api/page", "about us"⟩).resp.code = http.StatusConflict ∧
    (∀ (M : Model) (g : grpc.Handler M) (req : Option (grpc.CreateAndUpdateReq M)),
      (g.CreateSEO req).code ≠ codes.AlreadyExists) := by
  refine ⟨by decide, ?_, ?_, by decide, ?_, ?_, ?_⟩
  · simp [grpc.Handler.CreateSEO, demo.grpcHandler, demo.grpcDeps, demo.grpcCtrl, grpc.fail,
      errors.Is, ctrl.ErrAlreadyExists, ctrl.ErrNotFound]
  · simp [grpc.Handler.CreateSEO, demo.grpcHandler, demo.grpcDeps, demo.grpcCtrl, grpc.fail,
      errors.Is, ctrl.ErrAlreadyExists, ctrl.ErrNotFound]
  · simp [http.Handler.CreateSEO, demo.httpHandler, demo.httpDeps, demo.httpCtrl, http.finish,
      errors.Is, ctrl.ErrAlreadyExists, http.Response.code]
  · simp [http.Handler.CreatePage, demo.httpHandler, demo.httpDeps, demo.httpCtrl, http.finish,
      errors.Is, ctrl.ErrAlreadyExists, http.Response.code]
  · intro M g req
    simp only [grpc.Handler.CreateSEO]
    (repeat' split) <;>
      simp [grpc.fail, grpc.succeed, grpc.Outcome.code, codes.AlreadyExists,
        codes.InvalidArgument, codes.NotFound, codes.Internal, codes.OK]

/-- C2, evaluated on the code: for Create on requests both adapters accept, a
controller error matching ErrAlreadyExists is answered 409 over HTTP (a conflict)
and INTERNAL over gRPC (internal), and a controller error matching ErrNotFound is
answered 500 over HTTP (internal) and NOT_FOUND over gRPC (not-found): on the
same controller outcome the two adapters reach different domain-level decisions. -/
theorem create_breaks_adapter_parity :
    (((demo.httpHandler (some ctrl.ErrAlreadyExists)).CreateSEO
        ⟨"POST", "/api/seo", "title=Widget"⟩).calls.map (fun i => i.err)
      = [some ctrl.ErrAlreadyExists] ∧
     ((demo.grpcHandler (some ctrl.ErrAlreadyExists)).CreateSEO
        (some ⟨"product", "42", some "title=Widget"⟩)).calls.map (fun i => i.err)
      = [some ctrl.ErrAlreadyExists]) ∧
    (((demo.httpHandler (some ctrl.ErrAlreadyExists)).CreateSEO
        ⟨"POST", "/api/seo", "title=Widget"⟩).resp.code = 409 ∧
     ((demo.grpcHandler (some ctrl.ErrAlreadyExists)).CreateSEO
        (some ⟨"product", "42", some "title=Widget"⟩)).code = 13) ∧
    (http.decision ((demo.httpHandler (some ctrl.ErrAlreadyExists)).CreateSEO
        ⟨"POST", "/api/seo", "title=Widget"⟩).resp.code = some .conflict ∧
     grpc.decision ((demo.grpcHandler (some ctrl.ErrAlreadyExists)).CreateSEO
        (some ⟨"product", "42", some "title=Widget"⟩)).code = some .internal) ∧
    (http.decision ((demo.httpHandler (some ctrl.ErrNotFound)).CreateSEO
        ⟨"POST", "/api/seo", "title=Widget"⟩).resp.code = some .internal ∧
     grpc.decision ((demo.grpcHandler (some ctrl.ErrNotFound)).CreateSEO
        (some ⟨"product", "42", some "title=Widget"⟩)).code = some .notFound) := by
  refine ⟨⟨?_, ?_⟩, ⟨?_, ?_⟩, ⟨?_, ?_⟩, ⟨?_, ?_⟩⟩ <;>
    simp [http.Handler.CreateSEO, grpc.Handler.CreateSEO, demo.httpHandler, demo.httpDeps,
      demo.httpCtrl, demo.grpcHandler, demo.grpcDeps, demo.grpcCtrl, http.finish, grpc.fail,
      errors.Is, ctrl.ErrAlreadyExists, ctrl.ErrNotFound, http.Response.code, grpc.Outcome.code,
      http.decision, grpc.decision, http.StatusConflict, http.StatusInternalServerError,
      codes.Internal, codes.NotFound]

/-- Parity where it does hold: for Get, Update and Delete of an SEO record, when
both adapters invoke their controller and the two controllers return the same
outcome oe (the same error, or nil on both sides), the HTTP status and the RPC
code stand for the same domain-level decision. -/
theorem seo_parity_get_update_delete {M : Model} (h : http.Handler M) (g : grpc.Handler M)
    (r : http.Request) (q : Option grpc.GetReq) (u : Option (grpc.CreateAndUpdateReq M))
    (oe : Option GoError) :
    ((h.GetSEO r).calls.map (fun i => i.err) = [oe] →
      (g.GetSEO q).calls.map (fun j => j.err) = [oe] →
      http.decision (h.GetSEO r).resp.code = grpc.decision (g.GetSEO q).code) ∧
    ((h.UpdateSEO r).calls.map (fun i => i.err) = [oe] →
      (g.UpdateSEO u).calls.map (fun j => j.err) = [oe] →
      http.decision (h.UpdateSEO r).resp.code = grpc.decision (g.UpdateSEO u).code) ∧
    ((h.DeleteSEO r).calls.map (fun i => i.err) = [oe] →
      (g.DeleteSEO q).calls.map (fun j => j.err) = [oe] →
      http.decision (h.DeleteSEO r).resp.code = grpc.decision (g.DeleteSEO q).code) := by
  refine ⟨?_, ?_, ?_⟩ <;>
    simp only [http.Handler.GetSEO, http.Handler.UpdateSEO, http.Handler.DeleteSEO,
      grpc.Handler.GetSEO, grpc.Handler.UpdateSEO, grpc.Handler.DeleteSEO, http.finish,
      grpc.fail, grpc.succeed] <;>
    (repeat' split) <;>
    simp [http.Response.code, grpc.Outcome.code, http.decision, grpc.decision,
      http.StatusOK, http.StatusNoContent, http.StatusNotFound, http.StatusInternalServerError,
      http.StatusBadRequest, codes.OK, codes.NotFound, codes.Internal, codes.InvalidArgument] <;>
    (rintro rfl; simp_all) <;> (rintro rfl; simp_all)

/-- C3: in every get, update and delete handler of both adapters, on a request
that passes the checks of the handler (non-empty identity, a body that decodes
and validates where there is one), if the controller returns for the call of
the handler an error e with errors.Is(e, ErrNotFound), wrapped or not, the HTTP
handler writes 404 with e and the gRPC handler returns NOT_FOUND with the text
of e and no reply; in particular GetPage on a path whose slug is
"no-such-page", for which the controller returns such an error, answers 404. -/
theorem notFound_answers_404 {M : Model} (h : http.Handler M) (g : grpc.Handler M)
    (r : http.Request) (q : grpc.GetReq) (u : grpc.CreateAndUpdateReq M)
    (e : GoError) (hnf : errors.Is e ctrl.ErrNotFound = true) :
    ((h.deps.ParseURLParams r.Path).1 ≠ "" → (h.deps.ParseURLParams r.Path).2 ≠ "" →
      h.ctrl.GetSEO (h.deps.ParseURLParams r.Path).1 (h.deps.ParseURLParams r.Path).2
        = .error e →
      (h.GetSEO r).resp = .ErrResponse http.StatusNotFound e) ∧
    ((h.deps.ParseURLParams r.Path).1 ≠ "" → (h.deps.ParseURLParams r.Path).2 ≠ "" →
      ∀ req, h.deps.DecodeSEO r.Body = .ok req → h.deps.ValidateSEO req = none →
      h.ctrl.UpdateSEO req = some e →
      (h.UpdateSEO r).resp = .ErrResponse http.StatusNotFound e) ∧
    ((h.deps.ParseURLParams r.Path).1 ≠ "" → (h.deps.ParseURLParams r.Path).2 ≠ "" →
      h.ctrl.DeleteSEO (h.deps.ParseURLParams r.Path).1 (h.deps.ParseURLParams r.Path).2
        = some e →
      (h.DeleteSEO r).resp = .ErrResponse http.StatusNotFound e) ∧
    (h.deps.ParsePageParams r.Path ≠ "" →
      h.ctrl.GetPage (h.deps.ParsePageParams r.Path) = .error e →
      (h.GetPage r).resp = .ErrResponse http.StatusNotFound e) ∧
    (h.deps.ParsePageParams r.Path ≠ "" →
      ∀ req, h.deps.DecodePage r.Body = .ok req → h.deps.ValidatePage req = none →
      h.ctrl.UpdatePage (h.deps.ParsePageParams r.Path) req = some e →
      (h.UpdatePage r).resp = .ErrResponse http.StatusNotFound e) ∧
    (h.deps.ParsePageParams r.Path ≠ "" →
      h.ctrl.DeletePage (h.deps.ParsePageParams r.Path) = some e →
      (h.DeletePage r).resp = .ErrResponse http.StatusNotFound e) ∧
    (q.Name ≠ "" → q.Pk ≠ "" → g.ctrl.GetSEO q.Name q.Pk = .error e →
      (g.GetSEO (some q)).err = some ⟨codes.NotFound, e⟩ ∧ (g.GetSEO (some q)).reply = none) ∧
    (u.Name ≠ "" → u.Pk ≠ "" → g.deps.ValidateSEO (g.deps.ProtoToModel u.Seo) = none →
      g.ctrl.UpdateSEO u.Name u.Pk (g.deps.ProtoToModel u.Seo) = some e →
      (g.UpdateSEO (some u)).err = some ⟨codes.NotFound, e⟩ ∧
      (g.UpdateSEO (some u)).reply = none) ∧
    (q.Name ≠ "" → q.Pk ≠ "" → g.ctrl.DeleteSEO q.Name q.Pk = some e →
      (g.DeleteSEO (some q)).err = some ⟨codes.NotFound, e⟩ ∧
      (g.DeleteSEO (some q)).reply = none) ∧
    (h.deps.ParsePageParams r.Path = "no-such-page" →
      h.ctrl.GetPage "no-such-page" = .error e →
      (h.GetPage r).resp = .ErrResponse http.StatusNotFound e) := by
  refine ⟨?_, ?_, ?_, ?_, ?_, ?_, ?_, ?_, ?_, ?_⟩
  · intro h1 h2 hc
    simp [http.Handler.GetSEO, http.finish, h1, h2, hc, hnf]
  · intro h1 h2 req hd hv hc
    simp [http.Handler.UpdateSEO, http.finish, h1, h2, hd, hv, hc, hnf]
  · intro h1 h2 hc
    simp [http.Handler.DeleteSEO, http.finish, h1, h2, hc, hnf]
  · intro h1 hc
    simp [http.Handler.GetPage, http.finish, h1, hc, hnf]
  · intro h1 req hd hv hc
    simp [http.Handler.UpdatePage, http.finish, h1, hd, hv, hc, hnf]
  · intro h1 hc
    simp [http.Handler.DeletePage, http.finish, h1, hc, hnf]
  · intro h1 h2 hc
    simp [grpc.Handler.GetSEO, grpc.fail, h1, h2, hc, hnf]
  · intro h1 h2 hv hc
    simp [grpc.Handler.UpdateSEO, grpc.fail, h1, h2, hv, hc, hnf]
  · intro h1 h2 hc
    simp [grpc.Handler.DeleteSEO, grpc.fail, h1, h2, hc, hnf]
  · intro hslug hget
    simp [http.Handler.GetPage, hslug, hget, hnf, http.finish]

/-- Witness of C3: the controller returns a wrapped ErrNotFound to every call;
the SEO handlers are run on /api/seo/product/42 with a valid body, the page
handlers on /api/page/no-such-page with a valid body, the gRPC handlers on
("product", "42") with a valid record, against helpers that accept them. -/
theorem notFound_answers_404_witness :
    errors.Is (.wrap "store" ctrl.ErrNotFound) ctrl.ErrNotFound = true ∧
    (demo.httpDeps.ParseURLParams "/api/seo/product/42" = ("product", "42") ∧
      demo.httpDeps.DecodeSEO "title=Widget" = .ok "title=Widget" ∧
      demo.httpDeps.ValidateSEO "title=Widget" = none ∧
      ((demo.httpHandler (some (.wrap "store" ctrl.ErrNotFound))).GetSEO
        ⟨"GET", "/api/seo/product/42", "title=Widget"⟩).resp
        = .ErrResponse 404 (.wrap "store" ctrl.ErrNotFound) ∧
      ((demo.httpHandler (some (.wrap "store" ctrl.ErrNotFound))).UpdateSEO
        ⟨"GET", "/api/seo/product/42", "title=Widget"⟩).resp
        = .ErrResponse 404 (.wrap "store" ctrl.ErrNotFound) ∧
      ((demo.httpHandler (some (.wrap "store" ctrl.ErrNotFound))).DeleteSEO
        ⟨"GET", "/api/seo/product/42", "title=Widget"⟩).resp
        = .ErrResponse 404 (.wrap "store" ctrl.ErrNotFound)) ∧
    (demo.httpDeps.ParsePageParams "/api/page/no-such-page" = "no-such-page" ∧
      demo.httpDeps.DecodePage "about us" = .ok "about us" ∧
      demo.httpDeps.ValidatePage "about us" = none ∧
      ((demo.httpHandler (some (.wrap "store" ctrl.ErrNotFound))).GetPage
        ⟨"GET", "/api/page/no-such-page", "about us"⟩).resp
        = .ErrResponse 404 (.wrap "store" ctrl.ErrNotFound) ∧
      ((demo.httpHandler (some (.wrap "store" ctrl.ErrNotFound))).UpdatePage
        ⟨"GET", "/api/page/no-such-page", "about us"⟩).resp
        = .ErrResponse 404 (.wrap "store" ctrl.ErrNotFound) ∧
      ((demo.httpHandler (some (.wrap "store" ctrl.ErrNotFound))).DeletePage
        ⟨"GET", "/api/page/no-such-page", "about us"⟩).resp
        = .ErrResponse 404 (.wrap "store" ctrl.ErrNotFound)) ∧
    (demo.grpcDeps.ValidateSEO (demo.grpcDeps.ProtoToModel (some "title=Widget")) = none ∧
      ((demo.grpcHandler (some (.wrap "store" ctrl.ErrNotFound))).GetSEO
        (some ⟨"product", "42"⟩)).err = some ⟨5, .wrap "store" ctrl.ErrNotFound⟩ ∧
      ((demo.grpcHandler (some (.wrap "store" ctrl.ErrNotFound))).UpdateSEO
        (some ⟨"product", "42", some "title=Widget"⟩)).err
        = some ⟨5, .wrap "store" ctrl.ErrNotFound⟩ ∧
      ((demo.grpcHandler (some (.wrap "store" ctrl.ErrNotFound))).DeleteSEO
        (some ⟨"product", "42"⟩)).err = some ⟨5, .wrap "store" ctrl.ErrNotFound⟩) :=
  have hnf : errors.Is (.wrap "store" ctrl.ErrNotFound) ctrl.ErrNotFound = true := by decide
  have s := notFound_answers_404 (demo.httpHandler (some (.wrap "store" ctrl.ErrNotFound)))
    (demo.grpcHandler (some (.wrap "store" ctrl.ErrNotFound)))
    ⟨"GET", "/api/seo/product/42", "title=Widget"⟩ ⟨"product", "42"⟩
    ⟨"product", "42", some "title=Widget"⟩ (.wrap "store" ctrl.ErrNotFound) hnf
  have p := notFound_answers_404 (demo.httpHandler (some (.wrap "store" ctrl.ErrNotFound)))
    (demo.grpcHandler (some (.wrap "store" ctrl.ErrNotFound)))
    ⟨"GET", "/api/page/no-such-page", "about us"⟩ ⟨"product", "42"⟩
    ⟨"product", "42", some "title=Widget"⟩ (.wrap "store" ctrl.ErrNotFound) hnf
  ⟨hnf,
   ⟨by decide, rfl, rfl,
    s.1 (by decide) (by decide) rfl,
    s.2.1 (by decide) (by decide) "title=Widget" rfl rfl rfl,
    s.2.2.1 (by decide) (by decide) rfl⟩,
   ⟨by decide, rfl, rfl,
    p.2.2.2.1 (by decide) rfl,
    p.2.2.2.2.1 (by decide) "about us" rfl rfl rfl,
    p.2.2.2.2.2.1 (by decide) rfl⟩,
   ⟨rfl,
    (s.2.2.2.2.2.2.1 (by decide) (by decide) rfl).1,
    (s.2.2.2.2.2.2.2.1 (by decide) (by decide) rfl rfl).1,
    (s.2.2.2.2.2.2.2.2.1 (by decide) (by decide) rfl).1⟩⟩

/-- C4: an identity-addressed request whose identity is missing is rejected
before the controller is invoked, whatever else it carries: the HTTP SEO
handlers answer 400 when the parsed name or pk is empty, the HTTP Page handlers
answer 400 when the parsed slug is empty, and every gRPC handler answers
INVALID_ARGUMENT when the request is nil or its Name or Pk is empty; in each
case with the decode-request error and no controller invocation. -/
theorem missing_identity_rejected {M : Model} (h : http.Handler M) (g : grpc.Handler M)
    (r : http.Request) (rpc : grpc.Rpc M) :
    ((h.deps.ParseURLParams r.Path).1 = "" ∨ (h.deps.ParseURLParams r.Path).2 = "" →
      ∀ op ∈ [http.Op.GetSEO, .UpdateSEO, .DeleteSEO],
        (h.run op r).resp = .ErrResponse http.StatusBadRequest hdl.ErrDecodeRequest ∧
        (h.run op r).calls = []) ∧
    (h.deps.ParsePageParams r.Path = "" →
      ∀ op ∈ [http.Op.GetPage, .UpdatePage, .DeletePage],
        (h.run op r).resp = .ErrResponse http.StatusBadRequest hdl.ErrDecodeRequest ∧
        (h.run op r).calls = []) ∧
    (rpc.identityMissing →
      (g.run rpc).err = some ⟨codes.InvalidArgument, hdl.ErrDecodeRequest⟩ ∧
      (g.run rpc).reply = none ∧ (g.run rpc).calls = []) := by
  refine ⟨?_, ?_, ?_⟩
  · intro hid op hop
    simp only [List.mem_cons, List.mem_singleton, List.not_mem_nil, or_false] at hop
    rcases hop with rfl | rfl | rfl <;>
      simp [http.Handler.run, http.Handler.GetSEO, http.Handler.UpdateSEO,
        http.Handler.DeleteSEO, http.finish, hid]
  · intro hid op hop
    simp only [List.mem_cons, List.mem_singleton, List.not_mem_nil, or_false] at hop
    rcases hop with rfl | rfl | rfl <;>
      simp [http.Handler.run, http.Handler.GetPage, http.Handler.UpdatePage,
        http.Handler.DeletePage, http.finish, hid]
  · intro hid
    cases rpc with
    | GetSEO req =>
      cases req with
      | none => simp [grpc.Handler.run, grpc.Handler.GetSEO, grpc.fail]
      | some x =>
        have hx : x.Name = "" ∨ x.Pk = "" := by
          simpa [grpc.Rpc.identityMissing, grpc.Rpc.identity] using hid
        simp [grpc.Handler.run, grpc.Handler.GetSEO, grpc.fail, hx]
    | CreateSEO req =>
      cases req with
      | none => simp [grpc.Handler.run, grpc.Handler.CreateSEO, grpc.fail]
      | some x =>
        have hx : x.Name = "" ∨ x.Pk = "" := by
          simpa [grpc.Rpc.identityMissing, grpc.Rpc.identity] using hid
        simp [grpc.Handler.run, grpc.Handler.CreateSEO, grpc.fail, hx]
    | UpdateSEO req =>
      cases req with
      | none => simp [grpc.Handler.run, grpc.Handler.UpdateSEO, grpc.fail]
      | some x =>
        have hx : x.Name = "" ∨ x.Pk = "" := by
          simpa [grpc.Rpc.identityMissing, grpc.Rpc.identity] using hid
        simp [grpc.Handler.run, grpc.Handler.UpdateSEO, grpc.fail, hx]
    | DeleteSEO req =>
      cases req with
      | none => simp [grpc.Handler.run, grpc.Handler.DeleteSEO, grpc.fail]
      | some x =>
        have hx : x.Name = "" ∨ x.Pk = "" := by
          simpa [grpc.Rpc.identityMissing, grpc.Rpc.identity] using hid
        simp [grpc.Handler.run, grpc.Handler.DeleteSEO, grpc.fail, hx]

/-- Witness of C4: PUT /api/seo/ (no name, no pk) with a valid body, DELETE
/api/page/ (no slug), and a gRPC UpdateSEO whose Pk is empty, each against a
controller that would succeed. -/
theorem missing_identity_rejected_witness :
    ((demo.httpDeps.ParseURLParams "/api/seo/").1 = "" ∧
      ((demo.httpHandler none).run .UpdateSEO ⟨"PUT", "/api/seo/", "title=Widget"⟩).resp
        = .ErrResponse 400 hdl.ErrDecodeRequest ∧
      ((demo.httpHandler none).run .UpdateSEO ⟨"PUT", "/api/seo/", "title=Widget"⟩).calls
        = []) ∧
    (demo.httpDeps.ParsePageParams "/api/page/" = "" ∧
      ((demo.httpHandler none).run .DeletePage ⟨"DELETE", "/api/page/", ""⟩).resp
        = .ErrResponse 400 hdl.ErrDecodeRequest ∧
      ((demo.httpHandler none).run .DeletePage ⟨"DELETE", "/api/page/", ""⟩).calls = []) ∧
    ((grpc.Rpc.UpdateSEO (some (⟨"product", "", some "title=Widget"⟩ :
        grpc.CreateAndUpdateReq demo.model))).identityMissing ∧
      ((demo.grpcHandler none).run
        (.UpdateSEO (some ⟨"product", "", some "title=Widget"⟩))).err
        = some ⟨3, hdl.ErrDecodeRequest⟩ ∧
      ((demo.grpcHandler none).run
        (.UpdateSEO (some ⟨"product", "", some "title=Widget"⟩))).calls = []) :=
  have t := missing_identity_rejected (demo.httpHandler none) (demo.grpcHandler none)
    ⟨"PUT", "/api/seo/", "title=Widget"⟩ (.UpdateSEO (some ⟨"product", "", some "title=Widget"⟩))
  have t2 := missing_identity_rejected (demo.httpHandler none) (demo.grpcHandler none)
    ⟨"DELETE", "/api/page/", ""⟩ (.GetSEO none)
  have a := t.1 (Or.inl (by decide)) .UpdateSEO (by simp)
  have b := t2.2.1 (by decide) .DeletePage (by simp)
  have c := t.2.2 (Or.inr rfl)
  ⟨⟨by decide, a.1, a.2⟩, ⟨by decide, b.1, b.2⟩, ⟨Or.inr rfl, c.1, c.2.2⟩⟩

/-- C6: in every create and update handler a payload that fails to decode or
fails validation is answered with 400 (HTTP) or INVALID_ARGUMENT (gRPC) and the
controller is not invoked; and whenever a handler of either adapter has invoked
the controller, an error response it writes has status 404, 409 or 500 (HTTP),
an error it returns has code NOT_FOUND, ALREADY_EXISTS or INTERNAL (gRPC). -/
theorem invalid_payload_rejected {M : Model} (h : http.Handler M) (g : grpc.Handler M)
    (r : http.Request) (u : grpc.CreateAndUpdateReq M) :
    (((∃ e, h.deps.DecodeSEO r.Body = .error e) ∨
        (∃ req e, h.deps.DecodeSEO r.Body = .ok req ∧ h.deps.ValidateSEO req = some e)) →
      ∀ op ∈ [http.Op.CreateSEO, .UpdateSEO],
        (h.run op r).resp.code = http.StatusBadRequest ∧ (h.run op r).calls = []) ∧
    (((∃ e, h.deps.DecodePage r.Body = .error e) ∨
        (∃ req e, h.deps.DecodePage r.Body = .ok req ∧ h.deps.ValidatePage req = some e)) →
      ∀ op ∈ [http.Op.CreatePage, .UpdatePage],
        (h.run op r).resp.code = http.StatusBadRequest ∧ (h.run op r).calls = []) ∧
    ((∃ e, g.deps.ValidateSEO (g.deps.ProtoToModel u.Seo) = some e) →
      ∀ rpc ∈ [grpc.Rpc.CreateSEO (some u), .UpdateSEO (some u)],
        (g.run rpc).code = codes.InvalidArgument ∧ (g.run rpc).reply = none ∧
        (g.run rpc).calls = []) ∧
    (∀ op c err, (h.run op r).calls ≠ [] → (h.run op r).resp = .ErrResponse c err →
      c = http.StatusNotFound ∨ c = http.StatusConflict ∨ c = http.StatusInternalServerError) ∧
    (∀ rpc st, (g.run rpc).calls ≠ [] → (g.run rpc).err = some st →
      st.code = codes.NotFound ∨ st.code = codes.AlreadyExists ∨ st.code = codes.Internal) := by
  refine ⟨?_, ?_, ?_, ?_, ?_⟩
  · intro hbad op hop
    simp only [List.mem_cons, List.mem_singleton, List.not_mem_nil, or_false] at hop
    rcases hbad with ⟨e, he⟩ | ⟨req, e, hd, hv⟩ <;> rcases hop with rfl | rfl <;>
      simp only [http.Handler.run, http.Handler.CreateSEO, http.Handler.UpdateSEO,
        http.finish] <;>
      (repeat' split) <;> simp_all [http.Response.code]
  · intro hbad op hop
    simp only [List.mem_cons, List.mem_singleton, List.not_mem_nil, or_false] at hop
    rcases hbad with ⟨e, he⟩ | ⟨req, e, hd, hv⟩ <;> rcases hop with rfl | rfl <;>
      simp only [http.Handler.run, http.Handler.CreatePage, http.Handler.UpdatePage,
        http.finish] <;>
      (repeat' split) <;> simp_all [http.Response.code]
  · rintro ⟨e, he⟩ rpc hrpc
    simp only [List.mem_cons, List.mem_singleton, List.not_mem_nil, or_false] at hrpc
    rcases hrpc with rfl | rfl <;>
      simp only [grpc.Handler.run, grpc.Handler.CreateSEO, grpc.Handler.UpdateSEO] <;>
      (repeat' split) <;> simp_all [grpc.fail, grpc.succeed, grpc.Outcome.code]
  · intro op c err
    cases op <;>
      simp only [http.Handler.run, http.Handler.GetSEO, http.Handler.CreateSEO,
        http.Handler.UpdateSEO, http.Handler.DeleteSEO, http.Handler.ListPages,
        http.Handler.GetPage, http.Handler.CreatePage, http.Handler.UpdatePage,
        http.Handler.DeletePage, http.finish] <;>
      (repeat' split) <;> simp <;> (try (intro hc _; simp [← hc]))
  · intro rpc st
    cases rpc <;>
      simp only [grpc.Handler.run, grpc.Handler.GetSEO, grpc.Handler.UpdateSEO,
        grpc.Handler.DeleteSEO, grpc.Handler.CreateSEO, grpc.fail, grpc.succeed] <;>
      (repeat' split) <;> simp <;> (try (intro hc; simp [← hc]))

/-- Witness of C6: an empty body (fails to decode) on POST /api/seo, the record
"invalid" (fails validation) on PUT /api/page/about and in a gRPC CreateSEO,
each against a controller that would succeed; and, against a controller that
fails, a ListPages run and a gRPC GetSEO run that invoked it and answered 500
and INTERNAL. -/
theorem invalid_payload_rejected_witness :
    ((∃ e, demo.httpDeps.DecodeSEO "" = .error e) ∧
      ((demo.httpHandler none).run .CreateSEO ⟨"POST", "/api/seo", ""⟩).resp.code = 400 ∧
      ((demo.httpHandler none).run .CreateSEO ⟨"POST", "/api/seo", ""⟩).calls = []) ∧
    ((∃ req e, demo.httpDeps.DecodePage "invalid" = .ok req ∧
        demo.httpDeps.ValidatePage req = some e) ∧
      ((demo.httpHandler none).run .UpdatePage ⟨"PUT", "/api/page/about", "invalid"⟩).resp.code
        = 400 ∧
      ((demo.httpHandler none).run .UpdatePage ⟨"PUT", "/api/page/about", "invalid"⟩).calls
        = []) ∧
    ((∃ e, demo.grpcDeps.ValidateSEO (demo.grpcDeps.ProtoToModel (some "invalid")) = some e) ∧
      ((demo.grpcHandler none).run (.CreateSEO (some ⟨"product", "42", some "invalid"⟩))).code
        = 3 ∧
      ((demo.grpcHandler none).run (.CreateSEO (some ⟨"product", "42", some "invalid"⟩))).calls
        = []) ∧
    (((demo.httpHandler (some demo.errConn)).run .ListPages ⟨"GET", "/api/page", ""⟩).calls
        ≠ [] ∧
      ((demo.httpHandler (some demo.errConn)).run .ListPages ⟨"GET", "/api/page", ""⟩).resp
        = .ErrResponse 500 hdl.ErrInternal ∧
      (500 = http.StatusNotFound ∨ 500 = http.StatusConflict ∨
        500 = http.StatusInternalServerError)) ∧
    (((demo.grpcHandler (some demo.errConn)).run (.GetSEO (some ⟨"product", "42"⟩))).calls
        ≠ [] ∧
      ((demo.grpcHandler (some demo.errConn)).run (.GetSEO (some ⟨"product", "42"⟩))).err
        = some ⟨13, hdl.ErrInternal⟩ ∧
      ((13 : Nat) = codes.NotFound ∨ (13 : Nat) = codes.AlreadyExists ∨
        (13 : Nat) = codes.Internal)) :=
  have t := invalid_payload_rejected (demo.httpHandler none) (demo.grpcHandler none)
    ⟨"POST", "/api/seo", ""⟩ ⟨"product", "42", some "invalid"⟩
  have t2 := invalid_payload_rejected (demo.httpHandler none) (demo.grpcHandler none)
    ⟨"PUT", "/api/page/about", "invalid"⟩ ⟨"product", "42", some "invalid"⟩
  have t3 := invalid_payload_rejected (demo.httpHandler (some demo.errConn))
    (demo.grpcHandler (some demo.errConn)) ⟨"GET", "/api/page", ""⟩
    ⟨"product", "42", some "invalid"⟩
  have d1 : ∃ e, demo.httpDeps.DecodeSEO "" = .error e := ⟨_, rfl⟩
  have d2 : ∃ req e, demo.httpDeps.DecodePage "invalid" = .ok req ∧
      demo.httpDeps.ValidatePage req = some e := ⟨_, _, rfl, rfl⟩
  have d3 : ∃ e, demo.grpcDeps.ValidateSEO (demo.grpcDeps.ProtoToModel (some "invalid"))
      = some e := ⟨_, rfl⟩
  have n1 : ((demo.httpHandler (some demo.errConn)).run .ListPages
      ⟨"GET", "/api/page", ""⟩).calls ≠ [] := List.cons_ne_nil _ _
  have n2 : ((demo.grpcHandler (some demo.errConn)).run
      (.GetSEO (some ⟨"product", "42"⟩))).calls ≠ [] := List.cons_ne_nil _ _
  have a := t.1 (Or.inl d1) .CreateSEO (by simp)
  have b := t2.2.1 (Or.inr d2) .UpdatePage (by simp)
  have c := t.2.2.1 d3 (.CreateSEO (some ⟨"product", "42", some "invalid"⟩)) (by simp)
  ⟨⟨d1, a.1, a.2⟩, ⟨d2, b.1, b.2⟩, ⟨d3, c.1, c.2.2⟩,
   ⟨n1, rfl, t3.2.2.2.1 .ListPages 500 hdl.ErrInternal n1 rfl⟩,
   ⟨n2, rfl, t3.2.2.2.2 (.GetSEO (some ⟨"product", "42"⟩)) ⟨13, hdl.ErrInternal⟩ n2 rfl⟩⟩

/-- C7, evaluated on the code: HTTP UpdateSEO parses and checks (name, pk) from
the URL path but calls the controller with the decoded body alone. PUT
/api/seo/product/42 and PUT /api/seo/user/7 with the same body lead to the same
controller call, and in general the call is UpdateSEO of the decoded body
whenever one is made. The gRPC UpdateSEO does pass (req.Name, req.Pk). -/
theorem http_UpdateSEO_drops_validated_identity :
    demo.httpDeps.ParseURLParams "/api/seo/product/42" = ("product", "42") ∧
    demo.httpDeps.ParseURLParams "/api/seo/user/7" = ("user", "7") ∧
    ((demo.httpHandler none).UpdateSEO ⟨"PUT", "/api/seo/product/42", "title=Widget Pro"⟩).calls
      = [⟨.UpdateSEO "title=Widget Pro", none⟩] ∧
    ((demo.httpHandler none).UpdateSEO ⟨"PUT", "/api/seo/user/7", "title=Widget Pro"⟩).calls
      = [⟨.UpdateSEO "title=Widget Pro", none⟩] ∧
    ((demo.grpcHandler none).UpdateSEO (some ⟨"product", "42", some "title=Widget Pro"⟩)).calls
      = [⟨.UpdateSEO "product" "42" "title=Widget Pro", none⟩] ∧
    (∀ (M : Model) (h : http.Handler M) (r : http.Request),
      (h.UpdateSEO r).calls = [] ∨
      ∃ req, h.deps.DecodeSEO r.Body = .ok req ∧
        (h.UpdateSEO r).calls.map (fun i => i.call) = [.UpdateSEO req]) := by
  refine ⟨by decide, by decide, ?_, ?_, ?_, ?_⟩
  · simp [http.Handler.UpdateSEO, demo.httpHandler, demo.httpDeps, demo.httpCtrl, http.finish]
  · simp [http.Handler.UpdateSEO, demo.httpHandler, demo.httpDeps, demo.httpCtrl, http.finish]
  · simp [grpc.Handler.UpdateSEO, demo.grpcHandler, demo.grpcDeps, demo.grpcCtrl, grpc.succeed]
  · intro M h r
    simp only [http.Handler.UpdateSEO, http.finish]
    (repeat' split) <;> simp_all

/-! ## Controller read path -/

/-- C8: when the Cache holds an entry at the key derived from an identity, Get
for that identity (GetSEO by name and pk, GetPage by slug) returns the
deserialized entry, accesses the Store zero times, leaves the Cache as it was,
and does not return NotFound. -/
theorem cache_hit_bypasses_store {M : Model} (c : ctrl.Controller M) (codec : ctrl.Codec M) :
    (∀ name pk bytes, c.cache.entries (codec.seoKey name pk) = some bytes →
      (c.GetSEO codec name pk).result = .ok (codec.decodeSEO bytes) ∧
      (c.GetSEO codec name pk).storeAccesses = 0 ∧
      (c.GetSEO codec name pk).entries = c.cache.entries ∧
      (c.GetSEO codec name pk).result ≠ .error .NotFound) ∧
    (∀ slug bytes, c.cache.entries (codec.pageKey slug) = some bytes →
      (c.GetPage codec slug).result = .ok (codec.decodePage bytes) ∧
      (c.GetPage codec slug).storeAccesses = 0 ∧
      (c.GetPage codec slug).entries = c.cache.entries ∧
      (c.GetPage codec slug).result ≠ .error .NotFound) := by
  refine ⟨?_, ?_⟩
  · intro name pk bytes hhit
    simp [ctrl.Controller.GetSEO, ctrl.cacheAside, hhit]
  · intro slug bytes hhit
    simp [ctrl.Controller.GetPage, ctrl.cacheAside, hhit]

/-- Witness of C8: a controller over an empty Store whose Cache holds the SEO
record of ("product", "42") and the page "about". -/
theorem cache_hit_bypasses_store_witness :
    (demo.controller.cache.entries (demo.codec.seoKey "product" "42") = some "title=Widget" ∧
      (demo.controller.GetSEO demo.codec "product" "42").result = .ok "title=Widget" ∧
      (demo.controller.GetSEO demo.codec "product" "42").storeAccesses = 0) ∧
    (demo.controller.cache.entries (demo.codec.pageKey "about") = some "about us" ∧
      (demo.controller.GetPage demo.codec "about").result = .ok "about us" ∧
      (demo.controller.GetPage demo.codec "about").storeAccesses = 0) :=
  have hs : demo.controller.cache.entries (demo.codec.seoKey "product" "42")
      = some "title=Widget" := by decide
  have hp : demo.controller.cache.entries (demo.codec.pageKey "about") = some "about us" := by
    decide
  have a := (cache_hit_bypasses_store demo.controller demo.codec).1 "product" "42" _ hs
  have b := (cache_hit_bypasses_store demo.controller demo.codec).2 "about" _ hp
  ⟨⟨hs, a.1, a.2.1⟩, ⟨hp, b.1, b.2.1⟩⟩

/-! ## Route dispatch -/

/-- C9: the mux holds exactly the four patterns /api/seo, /api/seo/, /api/page
and /api/page/; on each the method selects the handler as registered (POST;
GET, PUT, DELETE; GET, POST; GET, PUT, DELETE), and every other method gets the
method-not-allowed outcome: status 405, no handler run (nothing observed) and no
controller invocation. -/
theorem route_dispatch_exact {M : Model} (h : http.Handler M) (r : http.Request) :
    (http.RegisterSEORoutes h ++ http.RegisterPageRoutes h).map Prod.fst
      = ["/api/seo", "/api/seo/", "/api/page", "/api/page/"] ∧
    http.serve h "/api/seo" r = some (
      if r.Method = "POST" then h.CreateSEO r
      else http.methodNotAllowed) ∧
    http.serve h "/api/seo/" r = some (
      if r.Method = "GET" then h.GetSEO r
      else if r.Method = "PUT" then h.UpdateSEO r
      else if r.Method = "DELETE" then h.DeleteSEO r
      else http.methodNotAllowed) ∧
    http.serve h "/api/page" r = some (
      if r.Method = "GET" then h.ListPages r
      else if r.Method = "POST" then h.CreatePage r
      else http.methodNotAllowed) ∧
    http.serve h "/api/page/" r = some (
      if r.Method = "GET" then h.GetPage r
      else if r.Method = "PUT" then h.UpdatePage r
      else if r.Method = "DELETE" then h.DeletePage r
      else http.methodNotAllowed) ∧
    (http.methodNotAllowed : http.Outcome M).resp = .ErrResponse 405 hdl.ErrMethodNotAllowed ∧
    (http.methodNotAllowed : http.Outcome M).observed = none ∧
    (http.methodNotAllowed : http.Outcome M).calls = [] := by
  refine ⟨rfl, ?_, ?_, ?_, ?_, rfl, rfl, rfl⟩ <;>
    simp [http.serve, http.RegisterSEORoutes, http.RegisterPageRoutes, List.lookup,
      http.MethodGet, http.MethodPost, http.MethodPut, http.MethodDelete]

/-! ## Metrics -/

/-- C10: on every path of every handler the code the deferred closure gives to
metrics.ObserveRequest is the code of the response sent: the code handed to
ErrResponse or SuccessResponse over HTTP, the code of the returned status error
(OK for a nil error) over gRPC. -/
theorem observed_code_is_sent_code {M : Model} (h : http.Handler M) (op : http.Op)
    (r : http.Request) (g : grpc.Handler M) (rpc : grpc.Rpc M) :
    (h.run op r).observed.map Prod.fst = some (h.run op r).resp.code ∧
    (g.run rpc).observed.1 = (g.run rpc).code := by
  constructor
  · cases op <;>
      simp only [http.Handler.run, http.Handler.GetSEO, http.Handler.CreateSEO,
        http.Handler.UpdateSEO, http.Handler.DeleteSEO, http.Handler.ListPages,
        http.Handler.GetPage, http.Handler.CreatePage, http.Handler.UpdatePage,
        http.Handler.DeletePage, http.finish] <;>
      (repeat' split) <;> simp [http.Response.code]
  · cases rpc <;>
      simp only [grpc.Handler.run, grpc.Handler.GetSEO, grpc.Handler.UpdateSEO,
        grpc.Handler.DeleteSEO, grpc.Handler.CreateSEO, grpc.fail, grpc.succeed] <;>
      (repeat' split) <;> simp [grpc.Outcome.code]

end SeoSvc
